import Mathlib

/-!
Shallow embedding of the MetalOS SMP / interrupt / APIC / spinlock subsystem
(src/kernel/src/smp.c, smp.cpp, interrupts.c, interrupts.cpp, apic.c,
spinlock.c; the .c and .cpp variants of smp, apic and spinlock are
semantically identical, so one embedding serves both).

Machine integers are modelled as Nat; the only operations the code performs
on them (comparisons, small constants, shifts masked below 2^32) never
overflow, and where the C type would truncate (uint8_t arguments, uint32_t
register writes) an explicit `% 256` / `% 2^32` appears.

Hardware effects (IPI sends, PIC/APIC register writes, the timer callback)
are modelled as event traces returned next to the pure result, and hardware
inputs (APIC availability, the calling core's APIC id, the ICR
delivery-status reads, the moment a candidate core marks itself online) are
explicit parameters.
-/

/-! ## SMP data model (src/kernel/include/kernel/smp.h) -/

/-- MAX_CPUS from smp.h. -/
def MAX_CPUS : Nat := 16

/-- cpu_info_t from smp.h: logical id, physical APIC id, online flag,
reserved kernel-stack pointer. -/
structure CpuInfo where
  cpu_id : Nat
  apic_id : Nat
  online : Bool
  kernel_stack : Nat
deriving DecidableEq

/-- The coordinator's owned state (smp.c statics / SMPManager fields):
the descriptor array (length MAX_CPUS in every reachable state), the
discovered-core count and the multicore-active flag. -/
structure SMPState where
  cpuInfo : List CpuInfo
  cpuCount : Nat
  smpEnabled : Bool
deriving DecidableEq

/-- Zero-initialized static storage: C statics start all-zero; cpu_count
starts at 1 (the BSP) and smp_enabled at false, as in smp.c lines 13-15. -/
def initState : SMPState :=
  ⟨List.replicate MAX_CPUS ⟨0, 0, false, 0⟩, 1, false⟩

/-- smp_init_cpu (smp.c lines 46-53): bounds-checked write of a fresh
descriptor (online=false, kernel_stack=0) at index cpu_id. -/
def smp_init_cpu (s : SMPState) (cpu_id apic_id : Nat) : SMPState :=
  if cpu_id ≥ MAX_CPUS then s
  else { s with cpuInfo := s.cpuInfo.set cpu_id ⟨cpu_id, apic_id, false, 0⟩ }

/-- smp_cpu_online (smp.c lines 56-60) / SMPManager::markCPUOnline:
if cpu_id < MAX_CPUS, set that descriptor's online flag; otherwise do
nothing. -/
def smp_cpu_online (s : SMPState) (cpu_id : Nat) : SMPState :=
  if cpu_id < MAX_CPUS then
    match s.cpuInfo.get? cpu_id with
    | some c => { s with cpuInfo := s.cpuInfo.set cpu_id { c with online := true } }
    | none => s
  else s

/-- One IPI send as recorded by the coordinator's trace:
apic_send_ipi(dest, vector, delivery_mode). -/
structure IpiEvent where
  dest : Nat
  vector : Nat
  mode : Nat
deriving DecidableEq

/-- APIC_IPI_INIT from apic.h. -/
def APIC_IPI_INIT : Nat := 0x500

/-- APIC_IPI_STARTUP from apic.h. -/
def APIC_IPI_STARTUP : Nat := 0x600

/-- The inner scan of smp_start_ap's polling loop (smp.c lines 88-92):
scan descriptors at indices 0 .. cpu_count-1 for one whose apic_id matches
the candidate and whose online flag is set. -/
def pollScan (s : SMPState) (apicId : Nat) : Bool :=
  (s.cpuInfo.take s.cpuCount).any fun c => c.apic_id == apicId && c.online

/-- The polling loop of smp_start_ap (smp.c lines 86-94): up to 100
iterations of the scan. The state does not change during the window in this
model: the candidate's mark event, if any, is applied by the caller before
the window opens, which is the most favourable timing for the scan. -/
def pollLoop : Nat → SMPState → Nat → Bool
  | 0, _, _ => false
  | n + 1, s, apicId => if pollScan s apicId then true else pollLoop n s apicId

/-- smp_start_ap (smp.c lines 71-97) / SMPManager::startAP: send INIT, then
two STARTUP IPIs carrying page number 0x8000 >> 12 = 8, then poll the
descriptor table for the candidate's online flag. Returns the success
boolean and the trace of IPIs sent. -/
def smp_start_ap (s : SMPState) (apicId : Nat) : Bool × List IpiEvent :=
  (pollLoop 100 s apicId,
   [⟨apicId, 0, APIC_IPI_INIT⟩, ⟨apicId, 8, APIC_IPI_STARTUP⟩,
    ⟨apicId, 8, APIC_IPI_STARTUP⟩])

/-- One iteration of smp_init's candidate loop (smp.c lines 125-138).
`responds apicId` is the environment: true when the candidate core with that
APIC id executes the trampoline and marks the descriptor slot the
coordinator just assigned it (index cpuCount) online within the polling
window; the mark is applied before the poll opens (see pollLoop). -/
def smpCandidateStep (responds : Nat → Bool) (bspApicId : Nat)
    (acc : SMPState × List IpiEvent) (apicId : Nat) : SMPState × List IpiEvent :=
  let (s, tr) := acc
  if s.cpuCount < MAX_CPUS then
    if apicId = bspApicId then (s, tr)
    else
      let s1 := smp_init_cpu s s.cpuCount apicId
      let s2 := if responds apicId then smp_cpu_online s1 s1.cpuCount else s1
      let r := smp_start_ap s2 apicId
      if r.1 then ({ s2 with cpuCount := s2.cpuCount + 1 }, tr ++ r.2)
      else (s2, tr ++ r.2)
  else (s, tr)

/-- smp_init (smp.c lines 100-141) / SMPManager::init. Inputs: whether the
CPUID probe reports a local APIC, the BSP's APIC id, and the per-candidate
response oracle. Returns the final coordinator state and the trace of IPIs
issued by the startup protocol. -/
def smp_init (avail : Bool) (bspApicId : Nat) (responds : Nat → Bool) :
    SMPState × List IpiEvent :=
  if !avail then
    let s := smp_init_cpu initState 0 0
    let s := smp_cpu_online s 0
    ({ s with cpuCount := 1, smpEnabled := false }, [])
  else
    let s := smp_init_cpu initState 0 bspApicId
    let s := smp_cpu_online s 0
    let r := (List.range 12).foldl (smpCandidateStep responds bspApicId) (s, [])
    ({ r.1 with smpEnabled := decide (1 < r.1.cpuCount) }, r.2)

/-- smp_get_cpu_count (smp.c lines 144-146). -/
def smp_get_cpu_count (s : SMPState) : Nat := s.cpuCount

/-- smp_is_enabled (smp.c lines 149-151). -/
def smp_is_enabled (s : SMPState) : Bool := s.smpEnabled

/-- smp_get_cpu_info (smp.c lines 154-159): bounds-checked descriptor
lookup, NULL (none) for cpu_id ≥ MAX_CPUS. -/
def smp_get_cpu_info (s : SMPState) (cpu_id : Nat) : Option CpuInfo :=
  if cpu_id ≥ MAX_CPUS then none else s.cpuInfo.get? cpu_id

/-- The lookup loop of smp_get_current_cpu (smp.c lines 36-40): first
descriptor among the scanned prefix whose apic_id matches, returning its
cpu_id field. -/
def findCpu (cpus : List CpuInfo) (hw : Nat) : Option Nat :=
  match cpus with
  | [] => none
  | c :: rest => if c.apic_id = hw then some c.cpu_id else findCpu rest hw

/-- smp_get_current_cpu (smp.c lines 28-43) / SMPManager::getCurrentCPU.
`hw` is the value apic_get_id() would return on the calling core. The Bool
component records whether the APIC id register was read at all (it is not
when multicore is inactive: the function returns BSP_CPU_ID = 0 before
touching the controller). -/
def smp_get_current_cpu (s : SMPState) (hw : Nat) : Nat × Bool :=
  if !s.smpEnabled then (0, false)
  else (((findCpu (s.cpuInfo.take s.cpuCount) hw).getD 0), true)

/-! ## Theorems about the coordinator -/

/-- C8: whenever the multicore-active flag is false, getCurrentCPU returns
the bootstrap logical id 0 for every hardware identity of the calling core
and every content of the descriptor table, and no controller register is
read (the Bool component of the model is false). -/
theorem smp_get_current_cpu_inactive (info : List CpuInfo) (count : Nat) (hw : Nat) :
    smp_get_current_cpu ⟨info, count, false⟩ hw = (0, false) := rfl

/-- C7: if the capability probe reports no local controller, init() takes the
single-core fallback: count 1, multicore inactive, descriptor 0 online, and
no startup-protocol IPI is ever sent, whatever the BSP id and whatever the
candidate cores would have done. -/
theorem smp_init_no_apic (b : Nat) (responds : Nat → Bool) :
    (smp_init false b responds).1.cpuCount = 1 ∧
    (smp_init false b responds).1.smpEnabled = false ∧
    (smp_init false b responds).1.cpuInfo.get? 0 = some ⟨0, 0, true, 0⟩ ∧
    (smp_init false b responds).2 = [] :=
  ⟨rfl, rfl, rfl, rfl⟩

/-- C9: markCPUOnline is a silent no-op for ids ≥ MAX_CPUS, and for ids
below MAX_CPUS it rewrites exactly the targeted descriptor with its online
flag set, leaving every other descriptor, the count and the multicore flag
untouched (the `with`-update touches only cpuInfo, and List.set only index
id); no comparison against cpuCount occurs anywhere in the function. -/
theorem smp_cpu_online_frame (s : SMPState) (id : Nat)
    (hlen : s.cpuInfo.length = MAX_CPUS) :
    (MAX_CPUS ≤ id → smp_cpu_online s id = s) ∧
    (id < MAX_CPUS → ∃ c, s.cpuInfo.get? id = some c ∧
      smp_cpu_online s id =
        { s with cpuInfo := s.cpuInfo.set id { c with online := true } }) := by
  constructor
  · intro h
    unfold smp_cpu_online
    rw [if_neg (by omega)]
  · intro h
    have hid : id < s.cpuInfo.length := by omega
    refine ⟨s.cpuInfo.get ⟨id, hid⟩, List.get?_eq_get hid, ?_⟩
    simp only [smp_cpu_online, if_pos h, List.get?_eq_get hid]

/-- Witness for C9: on the freshly zeroed state (cpuCount = 1), id 20 is a
no-op and id 3 (≥ cpuCount, showing no count validation) flips exactly
descriptor 3. -/
theorem smp_cpu_online_frame_applied :
    (smp_cpu_online initState 20 = initState) ∧
    (∃ c, initState.cpuInfo.get? 3 = some c ∧
      smp_cpu_online initState 3 =
        { initState with
            cpuInfo := initState.cpuInfo.set 3 { c with online := true } }) :=
  ⟨(smp_cpu_online_frame initState 20 (by decide)).1 (by decide),
   (smp_cpu_online_frame initState 3 (by decide)).2 (by decide)⟩

/-- Helper: a successful findCpu lookup returns the cpu_id field of some
descriptor of the scanned list. -/
theorem findCpu_mem (cpus : List CpuInfo) (hw v : Nat)
    (h : findCpu cpus hw = some v) : ∃ c ∈ cpus, c.cpu_id = v := by
  induction cpus with
  | nil => simp [findCpu] at h
  | cons c rest ih =>
    unfold findCpu at h
    split at h
    · exact ⟨c, by simp, by injection h⟩
    · obtain ⟨c', hc', hv⟩ := ih h
      exact ⟨c', by simp [hc'], hv⟩

/-- C10: getCurrentCPU is total when multicore is active: when the hardware
identity matches no descriptor among the first cpuCount entries it falls
back to the bootstrap id 0, and under the descriptor invariant (every
scanned descriptor's cpu_id is below the count, count positive) the result
is always below getCPUCount(). -/
theorem smp_get_current_cpu_total (s : SMPState) (hw : Nat)
    (hcnt : 0 < s.cpuCount)
    (hid : ∀ c ∈ s.cpuInfo.take s.cpuCount, c.cpu_id < s.cpuCount) :
    (smp_get_current_cpu s hw).1 < s.cpuCount ∧
    (findCpu (s.cpuInfo.take s.cpuCount) hw = none →
      (smp_get_current_cpu s hw).1 = 0) := by
  unfold smp_get_current_cpu
  cases he : s.smpEnabled with
  | false => simpa using hcnt
  | true =>
    cases hf : findCpu (s.cpuInfo.take s.cpuCount) hw with
    | none => simpa [hf] using hcnt
    | some v =>
      obtain ⟨c, hc, hv⟩ := findCpu_mem _ _ _ hf
      refine ⟨?_, fun hnone => by simp at hnone⟩
      simpa [hf, ← hv] using hid c hc

/-- Witness for C10: a one-core active table whose only descriptor has
APIC id 7, queried from a core with the unmatched hardware identity 99. -/
theorem smp_get_current_cpu_total_applied :
    (smp_get_current_cpu ⟨[⟨0, 7, true, 0⟩], 1, true⟩ 99).1 < 1 ∧
    (findCpu ((⟨[⟨0, 7, true, 0⟩], 1, true⟩ : SMPState).cpuInfo.take 1) 99 = none →
      (smp_get_current_cpu ⟨[⟨0, 7, true, 0⟩], 1, true⟩ 99).1 = 0) :=
  smp_get_current_cpu_total ⟨[⟨0, 7, true, 0⟩], 1, true⟩ 99 (by decide) (by decide)

/-- Response oracle for the four-core scenario of C1: besides the BSP
(APIC id 0), the cores with APIC ids 1, 2 and 3 exist and each marks its
assigned descriptor online within the polling window. -/
def fourCoreResponds : Nat → Bool := fun a => a == 1 || a == 2 || a == 3

/-- C1 (code behaviour at the claimed scenario): even with the candidate's
descriptor online during the entire polling window, smp_start_ap returns
false — its scan runs over indices below cpuCount and therefore never
reaches the candidate's slot at index cpuCount — and consequently a 4-core
machine whose cores all respond still ends init() with getCPUCount() = 1
and isEnabled() = false, contradicting scenario B. -/
theorem smp_fourcore_startap_never_succeeds :
    (smp_start_ap ⟨[⟨0, 0, true, 0⟩, ⟨1, 5, true, 0⟩] ++
        List.replicate 14 ⟨0, 0, false, 0⟩, 1, false⟩ 5).1 = false ∧
    (smp_init true 0 fourCoreResponds).1.cpuCount = 1 ∧
    (smp_init true 0 fourCoreResponds).1.smpEnabled = false := by decide

/-! ## Interrupt dispatch (interrupts.c / interrupts.cpp)

Both dispatchers read the saved register state only through its int_no
field, so the embedding takes the vector number directly. Externally
visible effects are a trace of events: the timer callback invocation, the
local-controller (APIC) EOI write, and legacy-controller (PIC) port
writes recorded as (port, value). -/

/-- Externally visible effect of one dispatch. -/
inductive IrqEvent where
  | timerCallback
  | apicEOI
  | picWrite (port : Nat) (val : Nat)
deriving DecidableEq

/-- PIC1_COMMAND port (0x20). -/
def PIC1_COMMAND : Nat := 0x20

/-- PIC2_COMMAND port (0xA0). -/
def PIC2_COMMAND : Nat := 0xA0

/-- The legacy-PIC acknowledgment sequence shared verbatim by both
dispatchers (interrupts.c lines 153-158, interrupts.cpp lines 234-237):
0x20 to the slave command port first when the vector is ≥ 40, then 0x20 to
the master command port. -/
def legacyAck (v : Nat) : List IrqEvent :=
  (if 40 ≤ v then [.picWrite PIC2_COMMAND 0x20] else []) ++
    [.picWrite PIC1_COMMAND 0x20]

/-- The end-of-interrupt block of InterruptManager::handleInterrupt
(interrupts.cpp lines 227-239): inside the 32..47 range, acknowledge
through the APIC when multicore is active and an APIC is present,
otherwise through the legacy PIC(s). -/
def eoiPart (smp apic : Bool) (v : Nat) : List IrqEvent :=
  if 32 ≤ v ∧ v < 48 then
    if smp && apic then [.apicEOI] else legacyAck v
  else []

/-- InterruptManager::handleInterrupt (interrupts.cpp lines 219-240):
invoke the timer callback when the vector is 32, then the EOI block.
`smp` is smp_is_enabled() and `apic` is apic_is_available() at dispatch
time. -/
def handleInterrupt (smp apic : Bool) (v : Nat) : List IrqEvent :=
  (if v = 32 then [.timerCallback] else []) ++ eoiPart smp apic v

/-- interrupt_handler (interrupts.c lines 145-160): no callback dispatch
(the body is a TODO), and an unconditional legacy-PIC EOI for vectors
32..47, slave first for vectors ≥ 40; the APIC is never touched. -/
def interrupt_handler (v : Nat) : List IrqEvent :=
  if 32 ≤ v ∧ v < 48 then legacyAck v else []

/-- Controller acknowledgment writes of a trace: everything except the
timer-callback event. -/
def ackWrites (tr : List IrqEvent) : List IrqEvent :=
  tr.filter fun e => match e with
    | .timerCallback => false
    | _ => true

/-- Helper: the EOI block never contains the timer-callback event. -/
theorem eoiPart_no_timer (smp apic : Bool) (v : Nat) :
    IrqEvent.timerCallback ∉ eoiPart smp apic v := by
  unfold eoiPart legacyAck
  split
  · split
    · simp
    · split <;> simp
  · simp

/-- C3: handleInterrupt invokes the timer callback exactly when the vector
is 32 (once, and for no other vector), and when it does, the callback
event heads the trace, strictly before every acknowledgment write. -/
theorem handleInterrupt_timer_dispatch :
    (∀ smp apic v, (handleInterrupt smp apic v).count IrqEvent.timerCallback =
      if v = 32 then 1 else 0) ∧
    (∀ smp apic, (handleInterrupt smp apic 32).head? = some IrqEvent.timerCallback) := by
  constructor
  · intro smp apic v
    unfold handleInterrupt
    rw [List.count_append, List.count_eq_zero.mpr (eoiPart_no_timer smp apic v)]
    split <;> simp
  · intro smp apic
    rfl

/-- C2 counterexample: at vector 32 the object-style dispatcher invokes the
timer callback and the procedural one does not, so the full effect traces
differ; the two are not behaviorally equivalent. -/
theorem dispatchers_not_equivalent :
    IrqEvent.timerCallback ∈ handleInterrupt false false 32 ∧
    IrqEvent.timerCallback ∉ interrupt_handler 32 ∧
    handleInterrupt false false 32 ≠ interrupt_handler 32 ∧
    handleInterrupt true true 33 ≠ interrupt_handler 33 := by
  refine ⟨by decide, by decide, by decide, by decide⟩

/-- C2 amended: whenever multicore mode is inactive or no local controller
is present, the two dispatchers perform the same sequence of controller
acknowledgment writes; the procedural variant never invokes the timer
callback (and never writes the local controller), so equivalence holds
only for the acknowledgment sequence in the legacy configurations. -/
theorem dispatchers_ack_equiv (smp apic : Bool) (v : Nat)
    (h : smp = false ∨ apic = false) :
    ackWrites (handleInterrupt smp apic v) = interrupt_handler v ∧
    IrqEvent.timerCallback ∉ interrupt_handler v := by
  have hsa : (smp && apic) = false := by
    rcases h with h | h <;> simp [h]
  constructor
  · by_cases h32 : v = 32 <;> by_cases hr : 32 ≤ v ∧ v < 48 <;>
      by_cases h40 : 40 ≤ v <;>
      simp [handleInterrupt, eoiPart, interrupt_handler, ackWrites, legacyAck,
        hsa, h32, hr, h40]
  · by_cases hr : 32 ≤ v ∧ v < 48 <;> by_cases h40 : 40 ≤ v <;>
      simp [interrupt_handler, legacyAck, hr, h40]

/-- Witness for C2's amended statement: vector 44 with multicore inactive
and an APIC present. -/
theorem dispatchers_ack_equiv_applied :
    ackWrites (handleInterrupt false true 44) = interrupt_handler 44 ∧
    IrqEvent.timerCallback ∉ interrupt_handler 44 :=
  dispatchers_ack_equiv false true 44 (Or.inl rfl)

/-- C4: with multicore inactive (whatever the APIC probe would say),
dispatching vector 32 produces, besides the timer callback, exactly one
acknowledgment write — 0x20 to the primary PIC — and no local-controller
event; dispatching vector 44 produces exactly two acknowledgment writes,
secondary PIC first, then primary; the traces below enumerate every
externally visible effect, so nothing else is touched. The procedural
dispatcher's traces agree on the acknowledgment step. -/
theorem eoi_legacy_frame (apic : Bool) (v : Nat) (h40 : 40 ≤ v) (h48 : v < 48) :
    handleInterrupt false apic 32 = [.timerCallback, .picWrite PIC1_COMMAND 0x20] ∧
    handleInterrupt false apic v =
      [.picWrite PIC2_COMMAND 0x20, .picWrite PIC1_COMMAND 0x20] ∧
    interrupt_handler 32 = [.picWrite PIC1_COMMAND 0x20] ∧
    interrupt_handler v =
      [.picWrite PIC2_COMMAND 0x20, .picWrite PIC1_COMMAND 0x20] := by
  have hv32 : ¬v = 32 := by omega
  have hr : 32 ≤ v ∧ v < 48 := ⟨by omega, h48⟩
  refine ⟨by cases apic <;> decide, ?_, by decide, ?_⟩ <;>
    simp [handleInterrupt, eoiPart, interrupt_handler, legacyAck, hv32, hr, h40]

/-- Witness for C4 at the claimed concrete vectors 32 and 44, with the
APIC reported absent. -/
theorem eoi_legacy_frame_applied :
    handleInterrupt false false 32 = [.timerCallback, .picWrite PIC1_COMMAND 0x20] ∧
    handleInterrupt false false 44 =
      [.picWrite PIC2_COMMAND 0x20, .picWrite PIC1_COMMAND 0x20] ∧
    interrupt_handler 32 = [.picWrite PIC1_COMMAND 0x20] ∧
    interrupt_handler 44 =
      [.picWrite PIC2_COMMAND 0x20, .picWrite PIC1_COMMAND 0x20] :=
  eoi_legacy_frame false 44 (by decide) (by decide)

/-! ## Local APIC: inter-processor interrupts (apic.c lines 66-77)

apic_send_ipi interacts with the ICR register pair. The environment `env`
supplies the value returned by the k-th read of ICR_LOW (bit 12 is the
delivery-status / pending bit). The busy-wait loop is given explicit fuel;
running out models the C code spinning forever, so no trace is produced. -/

/-- One ICR register access performed by apic_send_ipi. -/
inductive ApicEvent where
  | readICR (val : Nat)
  | writeICRHigh (val : Nat)
  | writeICRLow (val : Nat)
deriving DecidableEq

/-- The busy-wait loop of apic_send_ipi (apic.c lines 68-70): read ICR_LOW
until bit 12 (value 4096) is clear, recording every read. -/
def ipiWait (env : Nat → Nat) : Nat → Nat → Option (List ApicEvent)
  | 0, _ => none
  | fuel + 1, k =>
    if env k &&& 4096 = 0 then some [.readICR (env k)]
    else (ipiWait env fuel (k + 1)).map (fun tr => .readICR (env k) :: tr)

/-- apic_send_ipi (apic.c lines 66-77): wait until no IPI is pending, then
write the destination to ICR_HIGH (bits 24-31) and finally the delivery
mode or-ed with the vector to ICR_LOW. The uint8_t parameters are
truncated with % 256 and the uint32_t register writes with % 2^32. -/
def apic_send_ipi (env : Nat → Nat) (fuel : Nat) (dest vector mode : Nat) :
    Option (List ApicEvent) :=
  (ipiWait env fuel 0).map fun tr =>
    tr ++ [.writeICRHigh (((dest % 256) <<< 24) % 2 ^ 32),
           .writeICRLow (((mode % 2 ^ 32) ||| (vector % 256)) % 2 ^ 32)]

/-- Helper: a completed wait is a run of pending reads followed by one read
with the delivery-status bit clear. -/
theorem ipiWait_spec (env : Nat → Nat) :
    ∀ fuel k tr, ipiWait env fuel k = some tr →
      ∃ pre c, tr = pre ++ [ApicEvent.readICR c] ∧ c &&& 4096 = 0 ∧
        ∀ e ∈ pre, ∃ x, e = ApicEvent.readICR x ∧ x &&& 4096 ≠ 0 := by
  intro fuel
  induction fuel with
  | zero => intro k tr h; simp [ipiWait] at h
  | succ n ih =>
    intro k tr h
    unfold ipiWait at h
    split at h
    · refine ⟨[], env k, ?_, by assumption, by simp⟩
      simpa using h.symm
    · rw [Option.map_eq_some'] at h
      obtain ⟨tr', htr', rfl⟩ := h
      obtain ⟨pre, c, rfl, hc, hpre⟩ := ih (k + 1) tr' htr'
      refine ⟨ApicEvent.readICR (env k) :: pre, c, by simp, hc, ?_⟩
      intro e he
      rcases List.mem_cons.mp he with rfl | he
      · exact ⟨env k, rfl, by assumption⟩
      · exact hpre e he

/-- C5: every completed apic_send_ipi trace consists of zero or more reads
that found the delivery-status bit set (the busy wait - and nothing else,
in particular no write, happens while an earlier IPI is pending), then one
read that found it clear, then the destination write to ICR_HIGH, and only
then the vector/mode command write to ICR_LOW. -/
theorem apic_send_ipi_ordering (env : Nat → Nat) (fuel dest vector mode : Nat)
    (tr : List ApicEvent) (h : apic_send_ipi env fuel dest vector mode = some tr) :
    ∃ pre c,
      tr = pre ++ [ApicEvent.readICR c,
        ApicEvent.writeICRHigh (((dest % 256) <<< 24) % 2 ^ 32),
        ApicEvent.writeICRLow (((mode % 2 ^ 32) ||| (vector % 256)) % 2 ^ 32)] ∧
      c &&& 4096 = 0 ∧
      ∀ e ∈ pre, ∃ x, e = ApicEvent.readICR x ∧ x &&& 4096 ≠ 0 := by
  unfold apic_send_ipi at h
  rw [Option.map_eq_some'] at h
  obtain ⟨tw, htw, rfl⟩ := h
  obtain ⟨pre, c, rfl, hc, hpre⟩ := ipiWait_spec env fuel 0 tw htw
  exact ⟨pre, c, by simp, hc, hpre⟩

/-- Witness for C5: a quiescent controller (every status read returns 0),
destination 1, vector 2, INIT delivery mode 0x500 = 1280. -/
theorem apic_send_ipi_ordering_applied :
    ∃ pre c,
      ([ApicEvent.readICR 0,
        ApicEvent.writeICRHigh (((1 % 256) <<< 24) % 2 ^ 32),
        ApicEvent.writeICRLow (((1280 % 2 ^ 32) ||| (2 % 256)) % 2 ^ 32)] : List ApicEvent) =
        pre ++ [ApicEvent.readICR c,
          ApicEvent.writeICRHigh (((1 % 256) <<< 24) % 2 ^ 32),
          ApicEvent.writeICRLow (((1280 % 2 ^ 32) ||| (2 % 256)) % 2 ^ 32)] ∧
      c &&& 4096 = 0 ∧
      ∀ e ∈ pre, ∃ x, e = ApicEvent.readICR x ∧ x &&& 4096 ≠ 0 :=
  apic_send_ipi_ordering (fun _ => 0) 1 1 2 1280 _ rfl

/-! ## Spinlock (spinlock.c)

The lock word is a Nat (0 = free, 1 = held; xchg always stores 1). The
claims concern a single thread of control, so between the steps of acquire
the word is changed by nobody else; the busy loop of spinlock_acquire is
given explicit fuel, and exhausting it models the loop spinning forever
(the call not returning). -/

/-- spinlock_init (spinlock.c lines 11-13): the word starts free. -/
def spinlock_init : Nat := 0

/-- spinlock_try_acquire (spinlock.c lines 38-48): one atomic exchange with
1; returns whether the old value was 0, next to the new lock word. It
performs exactly one exchange: no loop exists in the source. -/
def spinlock_try_acquire (l : Nat) : Bool × Nat := (decide (l = 0), 1)

/-- spinlock_acquire (spinlock.c lines 16-35): repeat the atomic exchange
until the old value reads 0. After the first exchange the word is 1, and
with no other thread it stays 1 for every later iteration. Returns the
lock word at return, or none when the fuel (iterations executed) runs out
without acquiring. -/
def spinlock_acquire : Nat → Nat → Option Nat
  | 0, _ => none
  | fuel + 1, l => if l = 0 then some 1 else spinlock_acquire fuel 1

/-- spinlock_release (spinlock.c lines 51-57): store 0. -/
def spinlock_release (_ : Nat) : Nat := 0

/-- spinlock_is_locked (spinlock.c lines 60-62). -/
def spinlock_is_locked (l : Nat) : Bool := decide (l ≠ 0)

/-- Helper: an acquire that starts on a held word never returns, whatever
fuel the loop is granted (single-threaded: nobody ever frees it). -/
theorem spinlock_acquire_held : ∀ fuel, spinlock_acquire fuel 1 = none := by
  intro fuel
  induction fuel with
  | zero => rfl
  | succ n ih => simpa [spinlock_acquire] using ih

/-- C6: single-threaded spinlock behaviour. An acquire either returns with
the word held (= 1) - exactly when it started on the free word - or never
returns; tryAcquire on the fresh (free) word succeeds, and on a held word
returns false after its single exchange (no looping: the definition
performs one exchange only); once the word is held, no further acquire or
tryAcquire can succeed until release stores 0 again. -/
theorem spinlock_single_thread :
    (∀ fuel l, spinlock_acquire (fuel + 1) l = if l = 0 then some 1 else none) ∧
    spinlock_try_acquire spinlock_init = (true, 1) ∧
    spinlock_try_acquire 1 = (false, 1) ∧
    (∀ fuel, spinlock_acquire fuel 1 = none) ∧
    (∀ l, spinlock_release l = 0) := by
  refine ⟨?_, rfl, rfl, spinlock_acquire_held, fun _ => rfl⟩
  intro fuel l
  by_cases h : l = 0 <;> simp [spinlock_acquire, h, spinlock_acquire_held]
